import Mathlib

/-!
Verification development for near-lake-pulse (src/main.rs, src/configs.rs).

The program is embedded shallowly: the shared `Stats` struct, the three
prometheus metrics, the event handler `handle_streamer_message`, the
periodic `stats_watcher` body, the `/metrics` handler retry loop, and the
CLI configuration surface.  The `f64` rate is modelled as `ℚ` (the values
involved - a `u64` difference divided by a `u64` interval - are exact),
`u64` fields as `Nat`, and the `i64` prometheus `IntGauge` as `Int` with
the fallible `u64 -> i64` conversion made explicit.  A panicking `unwrap`
is modelled as `Option.none`.
-/

namespace NearLakePulse

/-- The shared statistics struct (`struct Stats`, src/main.rs lines 30-35):
blocks processed so far, last processed block height, blocks-per-second. -/
structure Stats where
  blocks_processed_count : Nat
  last_processed_block_height : Nat
  bps : ℚ
deriving Repr, DecidableEq

/-- The `Stats::new` constructor (src/main.rs lines 38-44): all zeroes. -/
def Stats.new : Stats :=
  { blocks_processed_count := 0, last_processed_block_height := 0, bps := 0 }

/-- The watcher alert state (`enum State`, src/main.rs lines 47-51). -/
inductive State where
  | Alerting
  | Operating
deriving Repr, DecidableEq

/-- The three prometheus metrics registered in `main` (src/main.rs lines
22-28): the `pulse_latest_block` IntGauge (i64), the `pulse_blocks_indexed`
IntCounter and the `pulse_bps` Gauge (f64, modelled as ℚ). -/
structure Gauges where
  pulse_latest_block : Int
  pulse_blocks_indexed : Nat
  pulse_bps : ℚ
deriving Repr, DecidableEq

/-- Freshly registered gauges all read zero. -/
def Gauges.new : Gauges :=
  { pulse_latest_block := 0, pulse_blocks_indexed := 0, pulse_bps := 0 }

/-- The `height.try_into()` conversion from `u64` to `i64` used when setting
`LATEST_BLOCK_HEIGHT` (src/main.rs line 115): succeeds exactly when the
value fits in an `i64`, i.e. is below `2^63`. -/
def i64_of_u64 (h : Nat) : Option Int :=
  if h < 2 ^ 63 then some (h : Int) else none

/-- `handle_streamer_message` (src/main.rs lines 110-126), restricted to its
state effect.  It increments `BLOCKS_INDEXED`, sets `LATEST_BLOCK_HEIGHT`
to the height converted to `i64` (the `.unwrap()` on the conversion is the
`none` outcome), copies the current `stats.bps` into the `BPS` gauge,
increments `blocks_processed_count`, and sets
`last_processed_block_height` to the incoming height unconditionally. -/
def handle_streamer_message (height : Nat) (s : Stats) (g : Gauges) :
    Option (Stats × Gauges) :=
  match i64_of_u64 height with
  | none => none
  | some ih =>
    let g1 : Gauges :=
      { pulse_latest_block := ih
        pulse_blocks_indexed := g.pulse_blocks_indexed + 1
        pulse_bps := s.bps }
    let s1 : Stats :=
      { blocks_processed_count := s.blocks_processed_count + 1
        last_processed_block_height := height
        bps := s.bps }
    some (s1, g1)

/-- The stats mutation performed by `handle_streamer_message` (src/main.rs
lines 118-119): increment the processed count and set the last height. -/
def record_stats (s : Stats) (height : Nat) : Stats :=
  { blocks_processed_count := s.blocks_processed_count + 1
    last_processed_block_height := height
    bps := s.bps }

/-- Processing a sequence of streamer messages, stats projection. -/
def process_heights (s : Stats) (hs : List Nat) : Stats :=
  hs.foldl record_stats s

/-- The local state of the `stats_watcher` loop (src/main.rs lines
150-151): the saved baseline `prev_blocks_processed_count` and the alert
state `prev_state`. -/
structure WatcherLocal where
  prev_blocks_processed_count : Nat
  prev_state : State
deriving Repr, DecidableEq

/-- The initial watcher-local state (src/main.rs lines 150-151): baseline
zero, state `Operating`. -/
def watcher_init : WatcherLocal :=
  { prev_blocks_processed_count := 0, prev_state := State.Operating }

/-- One outbound telegram message, as sent by `stats_watcher`: either an
alert (src/main.rs lines 188-202) or a resolved message (lines 168-182),
each carrying the computed rate. -/
inductive Notice where
  | alert (rate : ℚ)
  | resolved (rate : ℚ)
deriving Repr, DecidableEq

/-- The rate computed at the top of each `stats_watcher` iteration
(src/main.rs lines 157-159):
`(blocks_processed_count - prev_blocks_processed_count) / interval_secs`.
The `u64` subtraction is modelled as truncated `Nat` subtraction; the
reachability invariant proved below shows the baseline never exceeds the
counter, so no truncation occurs on reachable states. -/
def sampled_rate (interval_secs : Nat) (s : Stats) (w : WatcherLocal) : ℚ :=
  ((s.blocks_processed_count - w.prev_blocks_processed_count : Nat) : ℚ) /
    (interval_secs : ℚ)

/-- Result of one `stats_watcher` iteration: updated stats (the `bps`
field), updated watcher-local state, the computed rate, and the messages
sent (one per chat id on a transition). -/
structure TickResult where
  stats : Stats
  watcher : WatcherLocal
  rate : ℚ
  sent : List (String × Notice)
deriving Repr, DecidableEq

/-- One iteration of the `stats_watcher` loop body (src/main.rs lines
153-206): compute the rate, store it in `stats.bps`, save the counter as
the new baseline, then run the two-state transition: from `Alerting`, a
rate `> 0` moves to `Operating` and sends one resolved message per chat
id; from `Operating`, a rate `<= 0` moves to `Alerting` and sends one
alert per chat id; otherwise no message is sent. -/
def watcher_tick (interval_secs : Nat) (chat_ids : List String)
    (s : Stats) (w : WatcherLocal) : TickResult :=
  let rate := sampled_rate interval_secs s w
  let s1 : Stats :=
    { blocks_processed_count := s.blocks_processed_count
      last_processed_block_height := s.last_processed_block_height
      bps := rate }
  let baseline := s.blocks_processed_count
  match w.prev_state with
  | State.Alerting =>
    if 0 < rate then
      { stats := s1
        watcher := { prev_blocks_processed_count := baseline
                     prev_state := State.Operating }
        rate := rate
        sent := chat_ids.map (fun c => (c, Notice.resolved rate)) }
    else
      { stats := s1
        watcher := { prev_blocks_processed_count := baseline
                     prev_state := State.Alerting }
        rate := rate
        sent := [] }
  | State.Operating =>
    if rate ≤ 0 then
      { stats := s1
        watcher := { prev_blocks_processed_count := baseline
                     prev_state := State.Alerting }
        rate := rate
        sent := chat_ids.map (fun c => (c, Notice.alert rate)) }
    else
      { stats := s1
        watcher := { prev_blocks_processed_count := baseline
                     prev_state := State.Operating }
        rate := rate
        sent := [] }

/-- The whole shared state of the process: the mutexed `Stats`, the
prometheus metrics, and the watcher task's local variables. -/
structure SysState where
  stats : Stats
  gauges : Gauges
  watcher : WatcherLocal
deriving Repr, DecidableEq

/-- The initial process state: `Stats::new`, freshly registered gauges,
watcher locals as initialised at src/main.rs lines 150-151. -/
def sys_init : SysState :=
  { stats := Stats.new, gauges := Gauges.new, watcher := watcher_init }

/-- The two kinds of step the two background tasks interleave: handling a
streamer message carrying a block height, or one watcher iteration. -/
inductive Event where
  | block (height : Nat)
  | tick
deriving Repr, DecidableEq

/-- One interleaved step of the system.  A `block` step runs
`handle_streamer_message` (failing when the height gauge conversion
panics) and leaves the watcher locals alone; a `tick` step runs the
watcher body and leaves the gauges alone (the watcher never touches a
prometheus metric in src/main.rs lines 153-206).  The second component is
the list of telegram messages sent during the step. -/
def sys_step (interval_secs : Nat) (chat_ids : List String)
    (e : Event) (st : SysState) :
    Option (SysState × List (String × Notice)) :=
  match e with
  | Event.block h =>
    match handle_streamer_message h st.stats st.gauges with
    | none => none
    | some (s, g) => some ({ stats := s, gauges := g, watcher := st.watcher }, [])
  | Event.tick =>
    let r := watcher_tick interval_secs chat_ids st.stats st.watcher
    some ({ stats := r.stats, gauges := st.gauges, watcher := r.watcher }, r.sent)

/-- States reachable from `sys_init` by successful interleaved steps. -/
inductive Reachable (interval_secs : Nat) (chat_ids : List String) :
    SysState → Prop where
  | init : Reachable interval_secs chat_ids sys_init
  | step {st st' : SysState} {e : Event} {out : List (String × Notice)} :
      Reachable interval_secs chat_ids st →
      sys_step interval_secs chat_ids e st = some (st', out) →
      Reachable interval_secs chat_ids st'

/-- The retry loop of the `/metrics` handler (src/main.rs lines 132-139),
abstracted over the encoder: `enc n = true` means the `n`-th call of
`encoder.encode` succeeds.  The loop breaks on the first success; it is
given explicit fuel, returning the index of the succeeding attempt or
`none` when the fuel runs out without a success.  The source loop has no
fuel: a run returning `none` for every fuel is a non-terminating run. -/
def metrics_loop (enc : Nat → Bool) : Nat → Nat → Option Nat
  | 0, _ => none
  | fuel + 1, n => if enc n then some n else metrics_loop enc fuel (n + 1)

/-- The arguments of each network subcommand (`struct RunArgs`,
src/configs.rs lines 32-37): the required starting block height. -/
structure RunArgs where
  block_height : Nat
deriving Repr, DecidableEq

/-- The network selector (`enum ChainId`, src/configs.rs lines 25-30). -/
inductive ChainId where
  | Mainnet (args : RunArgs)
  | Testnet (args : RunArgs)
  | Localnet (args : RunArgs)
deriving Repr, DecidableEq

/-- The run arguments carried by a network selector: every variant of
`ChainId` carries a `RunArgs`. -/
def ChainId.args : ChainId → RunArgs
  | ChainId.Mainnet a => a
  | ChainId.Testnet a => a
  | ChainId.Localnet a => a

/-- The lake framework configuration produced from a `ChainId`
(src/configs.rs lines 39-62). -/
structure LakeConfig where
  s3_endpoint : Option String
  s3_bucket_name : String
  s3_region_name : String
  start_block_height : Nat
deriving Repr, DecidableEq

/-- The `From<ChainId> for LakeConfig` conversion (src/configs.rs lines
39-62): picks the bucket per network and passes the starting height on. -/
def lakeConfigOfChainId : ChainId → LakeConfig
  | ChainId.Mainnet args =>
    { s3_endpoint := none
      s3_bucket_name := "near-lake-data-mainnet"
      s3_region_name := "eu-central-1"
      start_block_height := args.block_height }
  | ChainId.Testnet args =>
    { s3_endpoint := none
      s3_bucket_name := "near-lake-data-testnet"
      s3_region_name := "eu-central-1"
      start_block_height := args.block_height }
  | ChainId.Localnet args =>
    { s3_endpoint := none
      s3_bucket_name := "near-lake-data-localnet"
      s3_region_name := "eu-central-1"
      start_block_height := args.block_height }

/-- The CLI options (`struct Opts`, src/configs.rs lines 14-23):
`http_port` (u16, default 3030), optional `telegram_token`, zero or more
`chat_id` values, the sampling period, and the network subcommand.
Modelled from the spec: the `stats_interval_sec` field is read by main
(src/main.rs line 61) but its declaration is absent from the provided
src/configs.rs; the spec records it as a recognized option with
default 10, and it is included here on that basis. -/
structure Opts where
  http_port : Nat
  telegram_token : Option String
  chat_id : List String
  stats_interval_sec : Nat
  chain_id : ChainId
deriving Repr, DecidableEq

/-- The clap default for `http_port` (src/configs.rs line 15). -/
def default_http_port : Nat := 3030

/-- Modelled from the spec: the default of the `stats_interval_sec`
sampling-period option (its clap declaration is not in the provided
src/configs.rs), stated by the spec as 10. -/
def default_stats_interval_sec : Nat := 10

/-- The long-lived tasks `main` starts (src/main.rs lines 78-105): the
stats watcher is spawned only when a telegram token is present and the
chat-id list is non-empty (lines 79-91); the streamer-message consumer
(lines 93-99) and the HTTP server (lines 101-104) are started
unconditionally. -/
structure Tasks where
  watcher : Bool
  consumer : Bool
  http_server : Bool
deriving Repr, DecidableEq

/-- The task-spawning decision of `main` (src/main.rs lines 78-105). -/
def main_tasks (o : Opts) : Tasks :=
  { watcher :=
      match o.telegram_token with
      | some _ => !o.chat_id.isEmpty
      | none => false
    consumer := true
    http_server := true }

/-! Helper lemmas: facts about one watcher iteration that hold on every
branch of the state machine. -/

/-- The rate reported by a tick is the sampled rate. -/
theorem watcher_tick_rate (i : Nat) (cs : List String) (s : Stats)
    (w : WatcherLocal) : (watcher_tick i cs s w).rate = sampled_rate i s w := by
  unfold watcher_tick
  cases w.prev_state <;> dsimp only <;> split <;> rfl

/-- Every tick stores the current counter as the new baseline. -/
theorem watcher_tick_baseline (i : Nat) (cs : List String) (s : Stats)
    (w : WatcherLocal) :
    (watcher_tick i cs s w).watcher.prev_blocks_processed_count =
      s.blocks_processed_count := by
  unfold watcher_tick
  cases w.prev_state <;> dsimp only <;> split <;> rfl

/-- A tick never changes the processed-blocks counter. -/
theorem watcher_tick_count (i : Nat) (cs : List String) (s : Stats)
    (w : WatcherLocal) :
    (watcher_tick i cs s w).stats.blocks_processed_count =
      s.blocks_processed_count := by
  unfold watcher_tick
  cases w.prev_state <;> dsimp only <;> split <;> rfl

/-- A tick never changes the last processed block height. -/
theorem watcher_tick_height (i : Nat) (cs : List String) (s : Stats)
    (w : WatcherLocal) :
    (watcher_tick i cs s w).stats.last_processed_block_height =
      s.last_processed_block_height := by
  unfold watcher_tick
  cases w.prev_state <;> dsimp only <;> split <;> rfl

/-- Every tick stores the sampled rate in the `bps` field of the stats. -/
theorem watcher_tick_bps (i : Nat) (cs : List String) (s : Stats)
    (w : WatcherLocal) :
    (watcher_tick i cs s w).stats.bps = sampled_rate i s w := by
  unfold watcher_tick
  cases w.prev_state <;> dsimp only <;> split <;> rfl

/-- Claim C1: the stall watcher is a two-state machine starting in
`Operating`.  A sample with rate `<= 0` while `Operating` moves it to
`Alerting` and sends exactly one alert per configured chat id; a further
sample with rate `<= 0` while `Alerting` keeps the state and sends
nothing; a sample with rate `> 0` while `Alerting` moves it back to
`Operating` and sends exactly one resolved message per chat id; a rate of
exactly `0` satisfies the stalled condition `rate <= 0`. -/
theorem stall_watcher_state_machine (interval_secs : Nat)
    (chat_ids : List String) (s : Stats) (w : WatcherLocal) :
    watcher_init.prev_state = State.Operating ∧
    (w.prev_state = State.Operating → sampled_rate interval_secs s w ≤ 0 →
      (watcher_tick interval_secs chat_ids s w).watcher.prev_state =
          State.Alerting ∧
        (watcher_tick interval_secs chat_ids s w).sent =
          chat_ids.map
            (fun c => (c, Notice.alert (sampled_rate interval_secs s w)))) ∧
    (w.prev_state = State.Alerting → sampled_rate interval_secs s w ≤ 0 →
      (watcher_tick interval_secs chat_ids s w).watcher.prev_state =
          State.Alerting ∧
        (watcher_tick interval_secs chat_ids s w).sent = []) ∧
    (w.prev_state = State.Alerting → 0 < sampled_rate interval_secs s w →
      (watcher_tick interval_secs chat_ids s w).watcher.prev_state =
          State.Operating ∧
        (watcher_tick interval_secs chat_ids s w).sent =
          chat_ids.map
            (fun c => (c, Notice.resolved (sampled_rate interval_secs s w)))) ∧
    (sampled_rate interval_secs s w = 0 → sampled_rate interval_secs s w ≤ 0) := by
  refine ⟨rfl, ?_, ?_, ?_, fun h => le_of_eq h⟩
  · intro hst hr
    unfold watcher_tick
    rw [hst]
    dsimp only
    rw [if_pos hr]
    exact ⟨rfl, rfl⟩
  · intro hst hr
    unfold watcher_tick
    rw [hst]
    dsimp only
    rw [if_neg (not_lt.mpr hr)]
    exact ⟨rfl, rfl⟩
  · intro hst hr
    unfold watcher_tick
    rw [hst]
    dsimp only
    rw [if_pos hr]
    exact ⟨rfl, rfl⟩

/-- Witness for C1: starting from the initial state with a single
recipient and no blocks processed, the sampled rate is `0 ≤ 0`, the tick
moves the watcher to `Alerting` and sends exactly one alert. -/
theorem stall_watcher_state_machine_witness :
    (watcher_tick 10 ["ops"] Stats.new watcher_init).watcher.prev_state =
        State.Alerting ∧
      (watcher_tick 10 ["ops"] Stats.new watcher_init).sent =
        ["ops"].map
          (fun c => (c, Notice.alert (sampled_rate 10 Stats.new watcher_init))) :=
  (stall_watcher_state_machine 10 ["ops"] Stats.new watcher_init).2.1 rfl
    (by simp [sampled_rate, Stats.new, watcher_init])

/-- Claim C2: a watcher step over an interval of `T` seconds during which
`C` events were recorded since the previous sample computes rate `C / T`,
stores the current counter as the new baseline, and a subsequent step
with zero new events therefore computes rate `0`. -/
theorem sample_rate_and_baseline (interval_secs C : Nat)
    (chat_ids : List String) (s : Stats) (w : WatcherLocal)
    (h : s.blocks_processed_count = w.prev_blocks_processed_count + C) :
    (watcher_tick interval_secs chat_ids s w).rate =
        (C : ℚ) / (interval_secs : ℚ) ∧
      (watcher_tick interval_secs chat_ids s w).watcher.prev_blocks_processed_count
        = s.blocks_processed_count ∧
      (watcher_tick interval_secs chat_ids
          (watcher_tick interval_secs chat_ids s w).stats
          (watcher_tick interval_secs chat_ids s w).watcher).rate = 0 := by
  refine ⟨?_, watcher_tick_baseline _ _ _ _, ?_⟩
  · rw [watcher_tick_rate]
    unfold sampled_rate
    rw [h, Nat.add_sub_cancel_left]
  · rw [watcher_tick_rate]
    unfold sampled_rate
    rw [watcher_tick_count, watcher_tick_baseline, Nat.sub_self]
    simp

/-- Witness for C2: with 20 blocks recorded over a 10 second interval the
computed rate is `20 / 10 = 2`, the baseline becomes 20, and the very next
sample with no new blocks computes rate `0`. -/
theorem sample_rate_and_baseline_witness :
    (watcher_tick 10 [] ⟨20, 7, 0⟩ watcher_init).rate = (20 : ℚ) / (10 : ℚ) ∧
      (watcher_tick 10 [] ⟨20, 7, 0⟩ watcher_init).watcher.prev_blocks_processed_count
        = (⟨20, 7, 0⟩ : Stats).blocks_processed_count ∧
      (watcher_tick 10 []
          (watcher_tick 10 [] ⟨20, 7, 0⟩ watcher_init).stats
          (watcher_tick 10 [] ⟨20, 7, 0⟩ watcher_init).watcher).rate = 0 :=
  sample_rate_and_baseline 10 20 [] ⟨20, 7, 0⟩ watcher_init rfl

/-- Helper: a successful `handle_streamer_message` performs exactly the
`record_stats` mutation on the stats and sets the three gauges to the
height, the bumped counter, and the current `bps` field. -/
theorem handle_streamer_message_some (height : Nat) (s : Stats) (g : Gauges)
    (s' : Stats) (g' : Gauges)
    (h : handle_streamer_message height s g = some (s', g')) :
    s' = record_stats s height ∧
      g' = { pulse_latest_block := (height : Int)
             pulse_blocks_indexed := g.pulse_blocks_indexed + 1
             pulse_bps := s.bps } := by
  unfold handle_streamer_message i64_of_u64 at h
  by_cases hc : height < 2 ^ 63
  · rw [if_pos hc] at h
    dsimp only at h
    injection h with h1
    injection h1 with hs hg
    exact ⟨hs.symm, hg.symm⟩
  · rw [if_neg hc] at h
    exact Option.noConfusion h

/-- Counterexample for C3: with the last processed height at 5, handling a
message of height 3 (a decrease) still overwrites the last height with 3;
the claim says a decreasing height would not be stored. -/
theorem record_event_decreasing_height_stored :
    (3 : Nat) < 5 ∧
      ((handle_streamer_message 3 ⟨7, 5, 0⟩ Gauges.new).map
        (fun p => p.1.last_processed_block_height)) = some 3 ∧
      (3 : Nat) ≠ 5 := by
  refine ⟨by norm_num, rfl, by norm_num⟩

/-- Claim C3 as amended: every successful `handle_streamer_message` call
increments `blocks_processed_count` by one and sets
`last_processed_block_height` to the incoming height unconditionally -
also when the height decreases; the code performs no monotonicity check
and no anomaly logging. -/
theorem record_event_amended (height : Nat) (s : Stats) (g : Gauges)
    (h : height < 2 ^ 63) :
    handle_streamer_message height s g =
        some (record_stats s height,
          { pulse_latest_block := (height : Int)
            pulse_blocks_indexed := g.pulse_blocks_indexed + 1
            pulse_bps := s.bps }) ∧
      (record_stats s height).blocks_processed_count =
        s.blocks_processed_count + 1 ∧
      (record_stats s height).last_processed_block_height = height := by
  refine ⟨?_, rfl, rfl⟩
  unfold handle_streamer_message i64_of_u64
  rw [if_pos h]
  rfl

/-- Witness for the amended C3: handling height 3 after height 5. -/
theorem record_event_amended_witness :
    handle_streamer_message 3 ⟨7, 5, 0⟩ Gauges.new =
        some (record_stats ⟨7, 5, 0⟩ 3,
          { pulse_latest_block := ((3 : Nat) : Int)
            pulse_blocks_indexed := Gauges.new.pulse_blocks_indexed + 1
            pulse_bps := (⟨7, 5, 0⟩ : Stats).bps }) ∧
      (record_stats ⟨7, 5, 0⟩ 3).blocks_processed_count =
        (⟨7, 5, 0⟩ : Stats).blocks_processed_count + 1 ∧
      (record_stats ⟨7, 5, 0⟩ 3).last_processed_block_height = 3 :=
  record_event_amended 3 ⟨7, 5, 0⟩ Gauges.new (by norm_num)

/-- Helper: processing one more height first records it, then the rest. -/
theorem process_heights_cons (s : Stats) (a : Nat) (t : List Nat) :
    process_heights s (a :: t) = process_heights (record_stats s a) t := rfl

/-- Helper: processing a sequence adds its length to the counter. -/
theorem process_heights_count (s : Stats) (hs : List Nat) :
    (process_heights s hs).blocks_processed_count =
      s.blocks_processed_count + hs.length := by
  induction hs generalizing s with
  | nil => rfl
  | cons a t ih =>
    rw [process_heights_cons, ih, List.length_cons]
    simp only [record_stats]
    omega

/-- Helper: after a non-empty sequence the last height is the last element. -/
theorem process_heights_last (s : Stats) (hs : List Nat) (hne : hs ≠ []) :
    (process_heights s hs).last_processed_block_height = hs.getLast hne := by
  induction hs generalizing s with
  | nil => exact absurd rfl hne
  | cons a t ih =>
    cases t with
    | nil => rfl
    | cons b u =>
      rw [process_heights_cons, ih (record_stats s a) (List.cons_ne_nil b u),
        List.getLast_cons (List.cons_ne_nil b u)]

/-- Claim C10: after processing a non-empty sequence of events from the
initial stats, `last_processed_block_height` equals the height of the most
recent event - unconditionally, decreasing heights included - and
`blocks_processed_count` equals the number of events. -/
theorem last_height_and_count_over_sequence (hs : List Nat) (hne : hs ≠ []) :
    (process_heights Stats.new hs).last_processed_block_height =
        hs.getLast hne ∧
      (process_heights Stats.new hs).blocks_processed_count = hs.length := by
  refine ⟨process_heights_last Stats.new hs hne, ?_⟩
  rw [process_heights_count]
  simp [Stats.new]

/-- Witness for C10: the sequence of heights 5 then 3 ends with last
height 3 (the decreasing final event wins) and count 2. -/
theorem last_height_and_count_over_sequence_witness :
    (process_heights Stats.new [5, 3]).last_processed_block_height =
        ([5, 3] : List Nat).getLast (by simp) ∧
      (process_heights Stats.new [5, 3]).blocks_processed_count =
        ([5, 3] : List Nat).length :=
  last_height_and_count_over_sequence [5, 3] (by simp)

/-- Claim C6 as amended: `handle_streamer_message` completes without
failure for every height below `2 ^ 63` (the `i64` range of the
`pulse_latest_block` gauge); for larger `u64` heights the
`try_into().unwrap()` on setting that gauge panics. -/
theorem record_event_total_below_i64 (height : Nat) (s : Stats) (g : Gauges)
    (h : height < 2 ^ 63) :
    (handle_streamer_message height s g).isSome = true := by
  unfold handle_streamer_message i64_of_u64
  rw [if_pos h]
  rfl

/-- Witness for the amended C6: a realistic mainnet-scale height. -/
theorem record_event_total_below_i64_witness :
    (handle_streamer_message 123456789 Stats.new Gauges.new).isSome = true :=
  record_event_total_below_i64 123456789 Stats.new Gauges.new (by norm_num)

/-- Counterexample for C6: the height `2 ^ 63` is a valid `u64` value, yet
handling it fails (the unwrap of the `u64 -> i64` conversion panics),
so recording does not succeed on the full `u64` range. -/
theorem record_event_panics_at_two_pow_63 :
    handle_streamer_message (2 ^ 63) Stats.new Gauges.new = none ∧
      2 ^ 63 < 2 ^ 64 := by
  constructor
  · unfold handle_streamer_message i64_of_u64
    rw [if_neg (lt_irrefl _)]
  · norm_num

/-- Claim C4: when the exposition encoder fails, the `/metrics` handler
loops retrying it.  With an encoder that fails on every attempt, no
amount of fuel makes the loop produce a result: the source loop (which
has no fuel bound) never terminates and never returns a response, instead
of surfacing a single server error. -/
theorem metrics_encoder_failure_loops (fuel n : Nat) :
    metrics_loop (fun _ => false) fuel n = none := by
  induction fuel generalizing n with
  | zero => rfl
  | succ k ih =>
    unfold metrics_loop
    rw [if_neg (by simp)]
    exact ih (n + 1)

/-- Counterexample for C5: an event whose handling copies the current
`bps` field (here 5) into the `pulse_bps` gauge (previously 0): the
event-handling path does write the exported rate gauge. -/
theorem event_path_writes_bps_gauge :
    ((handle_streamer_message 1 ⟨0, 0, 5⟩ Gauges.new).map
        (fun p => p.2.pulse_bps)) = some 5 ∧
      Gauges.new.pulse_bps ≠ 5 := by
  refine ⟨rfl, by norm_num [Gauges.new]⟩

/-- Claim C5 as amended: the event-handling path is the sole writer of
`blocks_processed_count`, `last_processed_block_height` and of all three
prometheus gauges - on every event it sets the exported `pulse_bps` gauge
to the current `bps` field - while the watcher is the sole writer of the
`bps` field and of its own local state and never touches a gauge. -/
theorem writer_roles (i : Nat) (cs : List String) (e : Event)
    (st st' : SysState) (out : List (String × Notice))
    (hstep : sys_step i cs e st = some (st', out)) :
    (e = Event.tick →
      st'.gauges = st.gauges ∧
        st'.stats.blocks_processed_count = st.stats.blocks_processed_count ∧
        st'.stats.last_processed_block_height =
          st.stats.last_processed_block_height) ∧
      ∀ h : Nat, e = Event.block h →
        st'.stats.bps = st.stats.bps ∧ st'.watcher = st.watcher ∧
          st'.gauges.pulse_bps = st.stats.bps := by
  cases e with
  | tick =>
    refine ⟨fun _ => ?_, fun h hcontra => Event.noConfusion hcontra⟩
    simp only [sys_step, Option.some.injEq, Prod.mk.injEq] at hstep
    obtain ⟨hst, _⟩ := hstep
    rw [← hst]
    exact ⟨rfl, watcher_tick_count i cs st.stats st.watcher,
      watcher_tick_height i cs st.stats st.watcher⟩
  | block h0 =>
    refine ⟨fun hcontra => Event.noConfusion hcontra, fun h hh => ?_⟩
    simp only [sys_step] at hstep
    cases hhandle : handle_streamer_message h0 st.stats st.gauges with
    | none => rw [hhandle] at hstep; exact Option.noConfusion hstep
    | some p =>
      rw [hhandle] at hstep
      obtain ⟨hs', hg'⟩ :=
        handle_streamer_message_some h0 st.stats st.gauges p.1 p.2 hhandle
      simp only [Option.some.injEq, Prod.mk.injEq] at hstep
      obtain ⟨hst, _⟩ := hstep
      rw [← hst]
      refine ⟨?_, rfl, ?_⟩
      · show p.1.bps = st.stats.bps
        rw [hs']
        rfl
      · show p.2.pulse_bps = st.stats.bps
        rw [hg']

/-- Witness for the amended C5: one concrete block step from a state whose
`bps` field is 5 copies that value into the gauge and leaves the field and
the watcher untouched. -/
theorem writer_roles_witness :
    ({ stats := record_stats ⟨0, 0, 5⟩ 1
       gauges := { pulse_latest_block := 1, pulse_blocks_indexed := 1,
                   pulse_bps := 5 }
       watcher := watcher_init } : SysState).stats.bps =
        ({ stats := ⟨0, 0, 5⟩, gauges := Gauges.new,
           watcher := watcher_init } : SysState).stats.bps ∧
      ({ stats := record_stats ⟨0, 0, 5⟩ 1
         gauges := { pulse_latest_block := 1, pulse_blocks_indexed := 1,
                     pulse_bps := 5 }
         watcher := watcher_init } : SysState).watcher =
        ({ stats := ⟨0, 0, 5⟩, gauges := Gauges.new,
           watcher := watcher_init } : SysState).watcher ∧
      ({ stats := record_stats ⟨0, 0, 5⟩ 1
         gauges := { pulse_latest_block := 1, pulse_blocks_indexed := 1,
                     pulse_bps := 5 }
         watcher := watcher_init } : SysState).gauges.pulse_bps =
        ({ stats := ⟨0, 0, 5⟩, gauges := Gauges.new,
           watcher := watcher_init } : SysState).stats.bps :=
  (writer_roles 10 [] (Event.block 1)
      { stats := ⟨0, 0, 5⟩, gauges := Gauges.new, watcher := watcher_init }
      { stats := record_stats ⟨0, 0, 5⟩ 1
        gauges := { pulse_latest_block := 1, pulse_blocks_indexed := 1,
                    pulse_bps := 5 }
        watcher := watcher_init } [] rfl).2 1 rfl

/-- Helper: a block step bumps the counter by one; a tick keeps it. -/
theorem sys_step_count_le (i : Nat) (cs : List String) (e : Event)
    (st st' : SysState) (out : List (String × Notice))
    (hstep : sys_step i cs e st = some (st', out)) :
    st.stats.blocks_processed_count ≤ st'.stats.blocks_processed_count := by
  cases e with
  | tick =>
    simp only [sys_step, Option.some.injEq, Prod.mk.injEq] at hstep
    obtain ⟨hst, _⟩ := hstep
    rw [← hst]
    rw [watcher_tick_count]
  | block h0 =>
    simp only [sys_step] at hstep
    cases hhandle : handle_streamer_message h0 st.stats st.gauges with
    | none => rw [hhandle] at hstep; exact Option.noConfusion hstep
    | some p =>
      rw [hhandle] at hstep
      obtain ⟨hs', _⟩ :=
        handle_streamer_message_some h0 st.stats st.gauges p.1 p.2 hhandle
      simp only [Option.some.injEq, Prod.mk.injEq] at hstep
      obtain ⟨hst, _⟩ := hstep
      rw [← hst]
      show st.stats.blocks_processed_count ≤ p.1.blocks_processed_count
      rw [hs']
      exact Nat.le_succ _

/-- Helper: on every reachable state the watcher's saved baseline is at
most the current counter. -/
theorem reachable_baseline_le (i : Nat) (cs : List String) (st : SysState)
    (hreach : Reachable i cs st) :
    st.watcher.prev_blocks_processed_count ≤
      st.stats.blocks_processed_count := by
  induction hreach with
  | init => exact Nat.le_refl 0
  | step hr hstep ih =>
    next st0 st1 e out =>
    cases e with
    | tick =>
      simp only [sys_step, Option.some.injEq, Prod.mk.injEq] at hstep
      obtain ⟨hst, _⟩ := hstep
      rw [← hst]
      show (watcher_tick i cs st0.stats st0.watcher).watcher.prev_blocks_processed_count ≤
        (watcher_tick i cs st0.stats st0.watcher).stats.blocks_processed_count
      rw [watcher_tick_baseline, watcher_tick_count]
    | block h0 =>
      simp only [sys_step] at hstep
      cases hhandle : handle_streamer_message h0 st0.stats st0.gauges with
      | none => rw [hhandle] at hstep; exact Option.noConfusion hstep
      | some p =>
        rw [hhandle] at hstep
        obtain ⟨hs', _⟩ :=
          handle_streamer_message_some h0 st0.stats st0.gauges p.1 p.2 hhandle
        simp only [Option.some.injEq, Prod.mk.injEq] at hstep
        obtain ⟨hst, _⟩ := hstep
        rw [← hst]
        show st0.watcher.prev_blocks_processed_count ≤
          p.1.blocks_processed_count
        rw [hs']
        exact Nat.le_succ_of_le ih

/-- Claim C9: on every reachable state the counter dominates the saved
baseline, every successful step keeps the counter non-decreasing, and the
`u64` subtraction `blocks_processed_count - prev_blocks_processed_count`
performed by the watcher agrees with the exact integer difference - it
never underflows. -/
theorem counter_monotone_no_underflow (i : Nat) (cs : List String)
    (st : SysState) (hreach : Reachable i cs st) :
    st.watcher.prev_blocks_processed_count ≤
        st.stats.blocks_processed_count ∧
      ((st.stats.blocks_processed_count -
            st.watcher.prev_blocks_processed_count : Nat) : ℤ) =
        (st.stats.blocks_processed_count : ℤ) -
          (st.watcher.prev_blocks_processed_count : ℤ) ∧
      ∀ (e : Event) (st' : SysState) (out : List (String × Notice)),
        sys_step i cs e st = some (st', out) →
          st.stats.blocks_processed_count ≤
            st'.stats.blocks_processed_count := by
  have hle := reachable_baseline_le i cs st hreach
  exact ⟨hle, Int.ofNat_sub hle, fun e st' out hstep =>
    sys_step_count_le i cs e st st' out hstep⟩

/-- Witness for C9: the initial state is reachable and its baseline (0)
does not exceed its counter (0). -/
theorem counter_monotone_no_underflow_witness :
    sys_init.watcher.prev_blocks_processed_count ≤
      sys_init.stats.blocks_processed_count :=
  (counter_monotone_no_underflow 10 [] sys_init Reachable.init).1

/-- Claim C7: the configuration surface: `http_port` defaults to 3030,
the `stats_interval_sec` sampling period defaults to 10 (modelled from
the spec, its declaration being absent from the provided src/configs.rs),
and every network selector (`Mainnet`, `Testnet`, `Localnet`) carries a
required starting block height that the derived lake configuration starts
from; `telegram_token` is optional and `chat_id` holds zero or more
recipients by type. -/
theorem config_surface (c : ChainId) :
    default_http_port = 3030 ∧
      default_stats_interval_sec = 10 ∧
      (lakeConfigOfChainId c).start_block_height = c.args.block_height := by
  refine ⟨rfl, rfl, ?_⟩
  cases c <;> rfl

/-- Claim C8: with no telegram token, or with an empty recipient list, the
watcher task is not spawned, while the consumer and the HTTP server are
started normally; no error is raised. -/
theorem notifications_disabled_without_config (o : Opts)
    (h : o.telegram_token = none ∨ o.chat_id = []) :
    main_tasks o =
      { watcher := false, consumer := true, http_server := true } := by
  unfold main_tasks
  rcases h with h | h
  · rw [h]
  · rw [h]
    cases o.telegram_token <;> rfl

/-- Witness for C8: a configuration with a token but no recipients spawns
no watcher, and the consumer and server still run. -/
theorem notifications_disabled_without_config_witness :
    main_tasks
        { http_port := 3030, telegram_token := some "t", chat_id := []
          stats_interval_sec := 10
          chain_id := ChainId.Mainnet { block_height := 1 } } =
      { watcher := false, consumer := true, http_server := true } :=
  notifications_disabled_without_config
    { http_port := 3030, telegram_token := some "t", chat_id := []
      stats_interval_sec := 10
      chain_id := ChainId.Mainnet { block_height := 1 } } (Or.inr rfl)

end NearLakePulse
